import Mathlib

/-!
# Verification of `space_heater.c`

Shallow embedding of the coordination core of `space_heater.c` (nixigaj/space_heater.c),
a CPU load generator with two preprocessor-selected implementations:

* a Windows implementation (`main`, `CpuHeater`, `ExitHandler`), and
* a POSIX implementation (`main`, `cpu_heater`, `exit_handler`).

The supervisor control flow of each `main` is embedded as a pure function from an
environment record — the results of the external probes and fallible calls
(`GetStdHandle`, `SetConsoleCtrlHandler`, `GetSystemInfo`, `HeapAlloc`,
`CreateThread`; `sysconf`, `malloc`, `pthread_create`) — to the list of observable
events it performs (writes, spawns, joins, frees) paired with its exit status.
The shared stop flag is embedded as a tiny transition system over the actions that
can touch it.  `printf`-style decimal formatting of `%d`/`%lu` arguments is embedded
by an explicit base-10 renderer.
-/

namespace SpaceHeater

/-! ## Decimal rendering: model of `%d` / `%lu` formatting

`decimalAux` renders a natural number in base 10 with ASCII digits, most significant
digit first, using explicit fuel (one digit is consumed per fuel unit; `n + 1` units
always suffice).  `decimalInt` handles the sign for C `int` arguments. -/

def decimalAux : Nat → Nat → List Char
  | 0, _ => []
  | fuel + 1, n =>
    if n < 10 then [Char.ofNat (48 + n)]
    else decimalAux fuel (n / 10) ++ [Char.ofNat (48 + n % 10)]

def decimal (n : Nat) : String := String.mk (decimalAux (n + 1) n)

def decimalInt (i : Int) : String :=
  if i < 0 then "-" ++ decimal i.natAbs else decimal i.natAbs

/-! ## Observable events

One constructor per kind of externally visible action the program performs.
`write` models POSIX `fprintf` (the whole formatted line is emitted);
`writeConsole` models Windows `WriteConsoleA`, which takes an explicit character
count possibly different from the length of the buffer; `debug` models
`OutputDebugStringA`; `spawn i` / `join i` / `closeHandle i` are thread lifecycle
actions on slot `i` of the handle sequence; `freeSeq` models `free` / `HeapFree`
of the handle sequence. -/

inductive Chan where
  | stdout
  | stderr
deriving DecidableEq, Repr

inductive Event where
  | write (c : Chan) (msg : String)
  | writeConsole (c : Chan) (buf : String) (count : Nat)
  | debug (msg : String)
  | spawn (i : Nat)
  | join (i : Nat)
  | closeHandle (i : Nat)
  | freeSeq
deriving DecidableEq, Repr

/-- A stdout write, by the write primitive of either platform (used to count `Started` lines). -/
def Event.isStdoutWrite : Event → Bool
  | .write .stdout _ => true
  | .writeConsole .stdout _ _ => true
  | _ => false

/-! ## The spawn loop

Both implementations run `for (i = 0; i < numThreads; i++)`, create a thread,
and on the first failure emit a diagnostic event, after which `main` frees the
sequence and exits.  `spawnLoop diag fails i rem` is that loop starting at index
`i` with `rem` iterations left: it returns the emitted events and `some k` when
creation failed at index `k` (`none` when all succeeded).  `diag k` is the
diagnostic event of the platform for a failure at index `k`. -/

def spawnLoop (diag : Nat → Event) (fails : Nat → Bool) : Nat → Nat → List Event × Option Nat
  | _, 0 => ([], none)
  | i, rem + 1 =>
    if fails i then ([diag i], some i)
    else
      let r := spawnLoop diag fails (i + 1) rem
      (Event.spawn i :: r.1, r.2)

/-! ## POSIX implementation (`#elif defined(__linux) || ...` branch) -/

/-- Environment for the POSIX `main`: results of the external calls it makes.
`sigintOk` / `sigtermOk` record whether `signal(SIGINT, exit_handler)` and
`signal(SIGTERM, exit_handler)` succeed; the source (lines 181–182) discards both
return values, so `posixMain` does not depend on these fields. -/
structure PosixEnv where
  /-- result of `sysconf(_SC_NPROCESSORS_ONLN)` (a C `long`). -/
  nprocs : Int
  /-- whether `signal(SIGINT, exit_handler)` succeeds (result discarded by the code). -/
  sigintOk : Bool
  /-- whether `signal(SIGTERM, exit_handler)` succeeds (result discarded by the code). -/
  sigtermOk : Bool
  /-- whether `malloc(numThreads * sizeof(pthread_t))` returns non-NULL. -/
  mallocOk : Bool
  /-- whether `pthread_create` for slot `i` returns nonzero (i.e. fails). -/
  createFails : Nat → Bool

/-- Diagnostic emitted inside the POSIX spawn loop:
`fprintf(stderr, "Error creating thread %d.\n", i)`. -/
def posixSpawnFailDiag (i : Nat) : Event :=
  Event.write Chan.stderr ("Error creating thread " ++ decimal i ++ ".\n")

/-- The startup line, `fprintf(stdout, "Started %d worker threads\n", numThreads)`. -/
def posixStartedMsg (n : Int) : String :=
  "Started " ++ decimalInt n ++ " worker threads\n"

/-- The POSIX `main` (source lines 176–211): registers the two signal handlers
(results discarded), checks the processor count, allocates the handle array,
spawns one `cpu_heater` thread per slot, prints the startup line, joins every
thread in index order, frees the array and returns `EXIT_SUCCESS` (0).
Every failure path prints to stderr and returns `EXIT_FAILURE` (1).
The result is the event trace paired with the exit status. -/
def posixMain (env : PosixEnv) : List Event × Nat :=
  if env.nprocs ≤ 0 then
    ([Event.write Chan.stderr "Error getting the number of processors.\n"], 1)
  else if env.mallocOk = false then
    ([Event.write Chan.stderr "Error allocating memory for threads.\n"], 1)
  else
    let n := env.nprocs.toNat
    let s := spawnLoop posixSpawnFailDiag env.createFails 0 n
    match s.2 with
    | some _ => (s.1 ++ [Event.freeSeq], 1)
    | none =>
      (s.1 ++ [Event.write Chan.stdout (posixStartedMsg env.nprocs)]
          ++ (List.range n).map Event.join ++ [Event.freeSeq], 0)

/-- The POSIX signal handler `exit_handler` (source lines 220–223):
`fprintf(stdout, "Received exit signal %d: Exiting...\n", signal); stop = 1;`.
Its write events; the `stop = 1` store is modelled by `stopStep`. -/
def exit_handler (sig : Int) : List Event :=
  [Event.write Chan.stdout ("Received exit signal " ++ decimalInt sig ++ ": Exiting...\n")]

/-! ## Windows implementation (`#if defined(WIN32) || ...` branch) -/

/-- Conversion of a `DWORD` value (unsigned 32-bit, here a `Nat` reduced mod `2^32`)
to a C `INT` (signed 32-bit wrap-around), as in
`INT numThreads = sysinfo.dwNumberOfProcessors;`. -/
def toInt32 (d : Nat) : Int :=
  if d % 4294967296 < 2147483648 then ((d % 4294967296 : Nat) : Int)
  else ((d % 4294967296 : Nat) : Int) - 4294967296

/-- The call `StringCchPrintfA(messageBuffer, ARRAYSIZE(messageBuffer), ...)` returns
`S_OK` exactly when the formatted text plus its terminator fits the 128-`CHAR` buffer. -/
def strSafeOk (s : String) : Bool := s.length < 128

/-- Environment for the Windows `main`: results of the external calls it makes. -/
structure WinEnv where
  /-- whether `GetStdHandle(STD_OUTPUT_HANDLE)` returns a usable handle. -/
  stdoutOk : Bool
  /-- whether `GetStdHandle(STD_ERROR_HANDLE)` returns a usable handle. -/
  stderrOk : Bool
  /-- whether `SetConsoleCtrlHandler(ExitHandler, TRUE)` succeeds. -/
  ctrlHandlerOk : Bool
  /-- `sysinfo.dwNumberOfProcessors` from `GetSystemInfo` (a `DWORD`). -/
  dwNumberOfProcessors : Nat
  /-- whether `HeapAlloc` returns non-NULL. -/
  heapAllocOk : Bool
  /-- whether `CreateThread` for slot `i` returns NULL (i.e. fails). -/
  createFails : Nat → Bool

/-- The format template `"ERROR: Failed to create thread %d.\n"` (source line 92). -/
def winThreadTemplate : String := "ERROR: Failed to create thread %d.\n"

/-- The text actually formatted into `messageBuffer` for a spawn failure at slot `i`. -/
def winSpawnFailMsg (i : Nat) : String :=
  "ERROR: Failed to create thread " ++ decimal i ++ ".\n"

def winCtrlMsg : String := "ERROR: Failed to set console ctrl handler\n"
def winProcMsg : String := "ERROR: Failed to get number of processors\n"
def winAllocMsg : String := "ERROR: Failed to allocate memory for threads\n"

/-- Diagnostic emitted inside the Windows spawn loop (source lines 92–103).
On `S_OK` the code calls `WriteConsoleA(stdErr, messageBuffer, (DWORD)strlen(message), ...)`
— note the count is the length of the unformatted template `message`, not of
`messageBuffer`; on formatting failure it falls back to a fixed message. -/
def winSpawnFailDiag (i : Nat) : Event :=
  if strSafeOk (winSpawnFailMsg i) then
    Event.writeConsole Chan.stderr (winSpawnFailMsg i) winThreadTemplate.length
  else
    Event.writeConsole Chan.stderr "ERROR: Failed to create a thread\n"
      ("ERROR: Failed to create a thread\n").length

/-- The text formatted for the startup line, `"Started %d worker threads\n"`. -/
def winStartedMsg (n : Int) : String :=
  "Started " ++ decimalInt n ++ " worker threads\n"

/-- The startup write (source lines 109–120): on `S_OK` the formatted buffer is
written to stdout with count `strlen(messageBuffer)`; otherwise a fixed
fallback line is written. -/
def winStartedEvent (n : Int) : Event :=
  if strSafeOk (winStartedMsg n) then
    Event.writeConsole Chan.stdout (winStartedMsg n) (winStartedMsg n).length
  else
    Event.writeConsole Chan.stdout "Started worker threads\n"
      ("Started worker threads\n").length

/-- The Windows `main` (source lines 46–131): acquires the two console handles
(failure reported via `OutputDebugStringA` and `ExitProcess(EXIT_FAILURE)`),
registers the console ctrl handler, reads `dwNumberOfProcessors` into an `INT`
and checks it is positive, allocates the handle array, spawns one `CpuHeater`
thread per slot, writes the startup line, waits for all threads and closes each
handle, frees the array and returns `EXIT_SUCCESS` (0).
`WaitForMultipleObjects(numThreads, threads, TRUE, INFINITE)` waits for every one
of the `numThreads` thread handles to terminate; it is modelled as joining each
of the `n` handles once, in slot order. -/
def winMain (env : WinEnv) : List Event × Nat :=
  if env.stdoutOk = false then
    ([Event.debug "ERROR: Failed to initialize standard output"], 1)
  else if env.stderrOk = false then
    ([Event.debug "ERROR: Failed to initialize standard error ouput"], 1)
  else if env.ctrlHandlerOk = false then
    ([Event.writeConsole Chan.stderr winCtrlMsg winCtrlMsg.length], 1)
  else
    let numThreads := toInt32 env.dwNumberOfProcessors
    if numThreads ≤ 0 then
      ([Event.writeConsole Chan.stderr winProcMsg winProcMsg.length], 1)
    else if env.heapAllocOk = false then
      ([Event.writeConsole Chan.stderr winAllocMsg winAllocMsg.length], 1)
    else
      let n := numThreads.toNat
      let s := spawnLoop winSpawnFailDiag env.createFails 0 n
      match s.2 with
      | some _ => (s.1 ++ [Event.freeSeq], 1)
      | none =>
        (s.1 ++ [winStartedEvent numThreads]
            ++ (List.range n).map Event.join
            ++ (List.range n).map Event.closeHandle ++ [Event.freeSeq], 0)

/-- The text formatted by `ExitHandler`, `"Received exit signal %lu: Exiting...\n"`
with a `DWORD` argument. -/
def winExitMsg (sig : Nat) : String :=
  "Received exit signal " ++ decimal sig ++ ": Exiting...\n"

/-- The Windows console ctrl handler `ExitHandler` (source lines 140–160): formats
and writes the diagnostic to `stdErr` (fixed fallback text on formatting failure),
then performs `stop = TRUE` and returns `TRUE`.  Its write events; the store is
modelled by `stopStep`. -/
def ExitHandler (sig : Nat) : List Event :=
  if strSafeOk (winExitMsg sig) then
    [Event.writeConsole Chan.stderr (winExitMsg sig) (winExitMsg sig).length]
  else
    [Event.writeConsole Chan.stderr "Received exit signal: Exiting...\n"
      ("Received exit signal: Exiting...\n").length]

/-! ## The stop flag

Both implementations declare the flag as a plain `volatile` integer initialized to
zero/`FALSE` (source lines 41 and 171).  The only store in either program text is
the handler store `stop = TRUE;` / `stop = 1;`; the workers (`CpuHeater` /
`cpu_heater`) and `main` only load it.  `stopStep` is the effect of one action on
the flag value; `stopRun` folds a whole action sequence from the initial value
`false`. -/

/-- The actions of an execution that are relevant to the stop flag: a delivery of a
stop signal (running `exit_handler` / `ExitHandler`, whose only store is
`stop = 1` / `stop = TRUE`), one spin iteration of a worker `while (!stop) {}`
loop (a pure load), and any step of the supervisor (`main` never touches `stop`). -/
inductive Action where
  | signalDeliver (sig : Int)
  | workerPoll
  | supervisorStep
deriving DecidableEq, Repr

/-- Effect of one action on the stop flag. -/
def stopStep : Bool → Action → Bool
  | _, .signalDeliver _ => true
  | b, .workerPoll => b
  | b, .supervisorStep => b

/-- Value of the stop flag after an action sequence, from its initializer
(`static volatile int stop = 0;` / `static volatile BOOL stop = FALSE;`). -/
def stopRun (acts : List Action) : Bool := acts.foldl stopStep false

/-- The storage qualifier of the `stop` cell as declared in the source.  Both
declarations (line 41: `static volatile BOOL stop = FALSE;`, line 171:
`static volatile int stop = 0;`) use a plain `volatile`-qualified integer type;
neither uses a C11 `_Atomic` type nor any atomic intrinsic at its accesses
(lines 136, 158, 216, 222). -/
inductive CellQualifier where
  | plain
  | volatilePlain
  | atomic
deriving DecidableEq, Repr

/-- Qualifier of the Windows `stop` declaration, `static volatile BOOL stop = FALSE;`. -/
def winStopCellQualifier : CellQualifier := CellQualifier.volatilePlain

/-- Qualifier of the POSIX `stop` declaration, `static volatile int stop = 0;`. -/
def posixStopCellQualifier : CellQualifier := CellQualifier.volatilePlain

/-! ## Helper lemmas -/

theorem decimalAux_length_le :
    ∀ (fuel n k : Nat), 0 < k → n < 10 ^ k → (decimalAux fuel n).length ≤ k := by
  intro fuel
  induction fuel with
  | zero =>
    intro n k _ _
    simp [decimalAux]
  | succ fuel ih =>
    intro n k hk hn
    by_cases h10 : n < 10
    · simp [decimalAux, h10]
      omega
    · have hk2 : 2 ≤ k := by
        by_contra hlt
        have hk1 : k = 1 := by omega
        subst hk1
        simp [pow_one] at hn
        omega
      have hdiv : n / 10 < 10 ^ (k - 1) := by
        have hpow : 10 ^ (k - 1) * 10 = 10 ^ k := by
          rw [← pow_succ]
          congr 1
          omega
        rw [Nat.div_lt_iff_lt_mul (by norm_num)]
        omega
      have hrec := ih (n / 10) (k - 1) (by omega) hdiv
      simp [decimalAux, h10]
      omega

theorem decimal_length_le (n k : Nat) (hk : 0 < k) (h : n < 10 ^ k) :
    (decimal n).length ≤ k :=
  decimalAux_length_le (n + 1) n k hk h

/-- Any processor count or slot index representable as a positive C `INT`
renders in at most 10 decimal digits. -/
theorem decimal_length_le_ten (n : Nat) (h : n < 2147483648) : (decimal n).length ≤ 10 := by
  apply decimal_length_le n 10 (by norm_num)
  have hp : (10 : Nat) ^ 10 = 10000000000 := by norm_num
  omega

theorem decimalInt_natCast (n : Nat) : decimalInt (n : Int) = decimal n := by
  have h : ¬ ((n : Int) < 0) := by omega
  simp [decimalInt, h]

theorem spawnLoop_ok (diag : Nat → Event) (fails : Nat → Bool) :
    ∀ (rem i : Nat), (∀ j, j < rem → fails (i + j) = false) →
      spawnLoop diag fails i rem = ((List.range' i rem).map Event.spawn, none) := by
  intro rem
  induction rem with
  | zero =>
    intro i _
    rfl
  | succ rem ih =>
    intro i h
    have h0 : fails i = false := by simpa using h 0 (by omega)
    have hrec := ih (i + 1) (fun j hj => by
      have he : i + 1 + j = i + (j + 1) := by omega
      rw [he]
      exact h (j + 1) (by omega))
    simp [spawnLoop, h0, hrec, List.range'_succ]

theorem spawnLoop_fail (diag : Nat → Event) (fails : Nat → Bool) :
    ∀ (k i rem : Nat), (∀ j, j < k → fails (i + j) = false) → fails (i + k) = true →
      k < rem →
      spawnLoop diag fails i rem =
        ((List.range' i k).map Event.spawn ++ [diag (i + k)], some (i + k)) := by
  intro k
  induction k with
  | zero =>
    intro i rem _ hk hrem
    obtain ⟨r, rfl⟩ : ∃ r, rem = r + 1 := ⟨rem - 1, by omega⟩
    have hki : fails i = true := by simpa using hk
    simp [spawnLoop, hki]
  | succ k ih =>
    intro i rem h hk hrem
    obtain ⟨r, rfl⟩ : ∃ r, rem = r + 1 := ⟨rem - 1, by omega⟩
    have h0 : fails i = false := by simpa using h 0 (by omega)
    have he : i + 1 + k = i + (k + 1) := by omega
    have hrec := ih (i + 1) r (fun j hj => by
        have he' : i + 1 + j = i + (j + 1) := by omega
        rw [he']
        exact h (j + 1) (by omega))
      (by rw [he]; exact hk) (by omega)
    rw [he] at hrec
    simp [spawnLoop, h0, hrec, List.range'_succ]

theorem spawnLoop_none_iff (diag : Nat → Event) (fails : Nat → Bool) :
    ∀ (rem i : Nat),
      (spawnLoop diag fails i rem).2 = none ↔ ∀ j, j < rem → fails (i + j) = false := by
  intro rem
  induction rem with
  | zero =>
    intro i
    simp [spawnLoop]
  | succ rem ih =>
    intro i
    cases h0 : fails i with
    | true =>
      simp only [spawnLoop, h0, if_true]
      constructor
      · intro h
        exact absurd h (by simp)
      · intro hall
        have := hall 0 (by omega)
        simp [h0] at this
    | false =>
      simp only [spawnLoop, h0]
      rw [if_neg (by simp)]
      rw [ih (i + 1)]
      constructor
      · intro h j hj
        cases j with
        | zero => simpa using h0
        | succ j =>
          have he : i + (j + 1) = i + 1 + j := by omega
          rw [he]
          exact h j (by omega)
      · intro h j hj
        have he : i + 1 + j = i + (j + 1) := by omega
        rw [he]
        exact h (j + 1) (by omega)

theorem toInt32_of_lt (n : Nat) (h : n < 2147483648) : toInt32 n = (n : Int) := by
  have hm : n % 4294967296 = n := Nat.mod_eq_of_lt (by omega)
  simp [toInt32, hm, h]

theorem winStartedMsg_length (N : Nat) :
    (winStartedMsg (N : Int)).length = 24 + (decimal N).length := by
  have h1 : ("Started " : String).length = 8 := by decide
  have h2 : (" worker threads\n" : String).length = 16 := by decide
  simp [winStartedMsg, decimalInt_natCast, String.length_append, h1, h2]
  omega

theorem winStartedMsg_ok (N : Nat) (h : N < 2147483648) :
    strSafeOk (winStartedMsg (N : Int)) = true := by
  have hd := decimal_length_le_ten N h
  have hl := winStartedMsg_length N
  simp [strSafeOk]
  omega

theorem winSpawnFailMsg_length (i : Nat) :
    (winSpawnFailMsg i).length = 33 + (decimal i).length := by
  have h1 : ("ERROR: Failed to create thread " : String).length = 31 := by decide
  have h2 : ((".\n") : String).length = 2 := by decide
  simp [winSpawnFailMsg, String.length_append, h1, h2]
  omega

theorem winSpawnFailMsg_ok (i : Nat) (h : i < 2147483648) :
    strSafeOk (winSpawnFailMsg i) = true := by
  have hd := decimal_length_le_ten i h
  have hl := winSpawnFailMsg_length i
  simp [strSafeOk]
  omega

theorem posixMain_success (env : PosixEnv) (N : Nat) (hN : 0 < N)
    (hn : env.nprocs = (N : Int)) (hm : env.mallocOk = true)
    (hf : ∀ i, i < N → env.createFails i = false) :
    posixMain env =
      ((List.range N).map Event.spawn
        ++ [Event.write Chan.stdout (posixStartedMsg (N : Int))]
        ++ (List.range N).map Event.join ++ [Event.freeSeq], 0) := by
  have h1 : ¬ env.nprocs ≤ 0 := by omega
  have htn : env.nprocs.toNat = N := by omega
  have hsp := spawnLoop_ok posixSpawnFailDiag env.createFails N 0
    (fun j hj => by simpa using hf j hj)
  simp [posixMain, h1, hm, htn, hsp, hn, List.range_eq_range']
  omega

theorem winMain_success (env : WinEnv) (N : Nat) (hN : 0 < N) (hlt : N < 2147483648)
    (h1 : env.stdoutOk = true) (h2 : env.stderrOk = true) (h3 : env.ctrlHandlerOk = true)
    (hn : env.dwNumberOfProcessors = N) (ha : env.heapAllocOk = true)
    (hf : ∀ i, i < N → env.createFails i = false) :
    winMain env =
      ((List.range N).map Event.spawn
        ++ [Event.writeConsole Chan.stdout (winStartedMsg (N : Int)) (winStartedMsg (N : Int)).length]
        ++ (List.range N).map Event.join
        ++ (List.range N).map Event.closeHandle ++ [Event.freeSeq], 0) := by
  have ht : toInt32 env.dwNumberOfProcessors = (N : Int) := by
    rw [hn]
    exact toInt32_of_lt N hlt
  have hpos : ¬ toInt32 env.dwNumberOfProcessors ≤ 0 := by
    rw [ht]
    omega
  have htn : (toInt32 env.dwNumberOfProcessors).toNat = N := by
    rw [ht]
    omega
  have hsp := spawnLoop_ok winSpawnFailDiag env.createFails N 0
    (fun j hj => by simpa using hf j hj)
  have hse : winStartedEvent (N : Int) =
      Event.writeConsole Chan.stdout (winStartedMsg (N : Int)) (winStartedMsg (N : Int)).length := by
    simp [winStartedEvent, winStartedMsg_ok N hlt]
  simp [winMain, h1, h2, h3, hpos, ht, htn, ha, hsp, hse, List.range_eq_range']
  omega

theorem posixMain_spawnFail (env : PosixEnv) (N k : Nat) (hk : k < N)
    (hn : env.nprocs = (N : Int)) (hm : env.mallocOk = true)
    (hf : ∀ j, j < k → env.createFails j = false) (hfk : env.createFails k = true) :
    posixMain env =
      ((List.range k).map Event.spawn ++ [posixSpawnFailDiag k] ++ [Event.freeSeq], 1) := by
  have h1 : ¬ env.nprocs ≤ 0 := by omega
  have htn : env.nprocs.toNat = N := by omega
  have hsp := spawnLoop_fail posixSpawnFailDiag env.createFails k 0 N
    (fun j hj => by simpa using hf j hj) (by simpa using hfk) hk
  simp [posixMain, h1, hm, htn, hsp, List.range_eq_range']

theorem winMain_spawnFail (env : WinEnv) (N k : Nat) (hk : k < N) (hlt : N < 2147483648)
    (h1 : env.stdoutOk = true) (h2 : env.stderrOk = true) (h3 : env.ctrlHandlerOk = true)
    (hn : env.dwNumberOfProcessors = N) (ha : env.heapAllocOk = true)
    (hf : ∀ j, j < k → env.createFails j = false) (hfk : env.createFails k = true) :
    winMain env =
      ((List.range k).map Event.spawn ++ [winSpawnFailDiag k] ++ [Event.freeSeq], 1) := by
  have ht : toInt32 env.dwNumberOfProcessors = (N : Int) := by
    rw [hn]
    exact toInt32_of_lt N hlt
  have hpos : ¬ toInt32 env.dwNumberOfProcessors ≤ 0 := by
    rw [ht]
    omega
  have htn : (toInt32 env.dwNumberOfProcessors).toNat = N := by
    rw [ht]
    omega
  have hsp := spawnLoop_fail winSpawnFailDiag env.createFails k 0 N
    (fun j hj => by simpa using hf j hj) (by simpa using hfk) hk
  simp [winMain, h1, h2, h3, hpos, ht, htn, ha, hsp, List.range_eq_range']
  intro h
  exact absurd hk (by omega)

/-! ## Claims -/

/-- C2: the stop flag is initialized false; the only action that changes its value
is a signal delivery (running the handler), and then only to true; and it is
monotonic: once an action sequence has driven it to true, every extension of that
sequence still reads it as true, so no read observes true followed later by
false. -/
theorem c2_stop_flag_monotonic :
    stopRun [] = false
    ∧ (∀ (b : Bool) (a : Action),
        stopStep b a ≠ b → (∃ s, a = Action.signalDeliver s) ∧ stopStep b a = true)
    ∧ (∀ (acts more : List Action), stopRun acts = true → stopRun (acts ++ more) = true) := by
  refine ⟨rfl, ?_, ?_⟩
  · intro b a h
    cases a with
    | signalDeliver s => exact ⟨⟨s, rfl⟩, rfl⟩
    | workerPoll => simp [stopStep] at h
    | supervisorStep => simp [stopStep] at h
  · intro acts more h
    have htrue : ∀ l : List Action, List.foldl stopStep true l = true := by
      intro l
      induction l with
      | nil => rfl
      | cons a l ih =>
        cases a with
        | signalDeliver s => simpa [stopStep] using ih
        | workerPoll => simpa [stopStep] using ih
        | supervisorStep => simpa [stopStep] using ih
    rw [stopRun, List.foldl_append]
    rw [stopRun] at h
    rw [h]
    exact htrue more

/-- C2 witness: after a delivery of signal 2 the flag reads true, and it still
reads true after further worker polls and supervisor steps. -/
theorem c2_stop_flag_monotonic_witness :
    stopRun ([Action.signalDeliver 2] ++ [Action.workerPoll, Action.supervisorStep]) = true :=
  c2_stop_flag_monotonic.2.2 [Action.signalDeliver 2]
    [Action.workerPoll, Action.supervisorStep] (by decide)

/-- C3: the claim says the stop cell is an atomic; in the source both declarations
are plain `volatile`-qualified integers (`static volatile BOOL stop = FALSE;`,
line 41; `static volatile int stop = 0;`, line 171) with no atomic type or
intrinsic at any access, so the cell is not an atomic.  The spec itself records
that the original uses a plain volatile qualifier and calls that unacceptable,
so the claim states the intent and the code falls short of it. -/
theorem c3_stop_cell_is_plain_volatile :
    posixStopCellQualifier = CellQualifier.volatilePlain
    ∧ winStopCellQualifier = CellQualifier.volatilePlain
    ∧ posixStopCellQualifier ≠ CellQualifier.atomic
    ∧ winStopCellQualifier ≠ CellQualifier.atomic := by
  refine ⟨rfl, rfl, ?_, ?_⟩ <;> decide

/-- C5: the claim says the handler diagnostic goes to standard error; the POSIX
`exit_handler` writes it with `fprintf(stdout, ...)` (line 221), i.e. to standard
output, while the Windows `ExitHandler` writes the same line to standard error —
exhibited here at signal 2 (SIGINT). -/
theorem c5_posix_handler_writes_stdout :
    exit_handler 2 = [Event.write Chan.stdout "Received exit signal 2: Exiting...\n"]
    ∧ ExitHandler 2 =
        [Event.writeConsole Chan.stderr "Received exit signal 2: Exiting...\n" 35] := by
  constructor <;> decide

/-- C8: a processor-count probe result that is zero or negative makes both
implementations print a diagnostic to standard error and exit with status 1,
spawning no thread.  (On Windows the check is on the `INT` conversion of the
`DWORD` count, reached once both console handles and the ctrl handler are set.) -/
theorem c8_cpu_probe_nonpositive (pe : PosixEnv) (we : WinEnv)
    (hp : pe.nprocs ≤ 0)
    (h1 : we.stdoutOk = true) (h2 : we.stderrOk = true) (h3 : we.ctrlHandlerOk = true)
    (hw : toInt32 we.dwNumberOfProcessors ≤ 0) :
    posixMain pe = ([Event.write Chan.stderr "Error getting the number of processors.\n"], 1)
    ∧ winMain we = ([Event.writeConsole Chan.stderr winProcMsg winProcMsg.length], 1)
    ∧ (posixMain pe).2 ≠ 0 ∧ (winMain we).2 ≠ 0
    ∧ (∀ i, Event.spawn i ∉ (posixMain pe).1)
    ∧ (∀ i, Event.spawn i ∉ (winMain we).1) := by
  have hP : posixMain pe =
      ([Event.write Chan.stderr "Error getting the number of processors.\n"], 1) := by
    simp [posixMain, hp]
  have hW : winMain we = ([Event.writeConsole Chan.stderr winProcMsg winProcMsg.length], 1) := by
    simp [winMain, h1, h2, h3, hw]
  refine ⟨hP, hW, ?_, ?_, ?_, ?_⟩ <;> simp [hP, hW]

/-- C8 witness: probes returning 0 on both platforms. -/
theorem c8_cpu_probe_nonpositive_witness :
    posixMain
        { nprocs := 0, sigintOk := true, sigtermOk := true, mallocOk := true,
          createFails := fun _ => false } =
      ([Event.write Chan.stderr "Error getting the number of processors.\n"], 1)
    ∧ (winMain
        { stdoutOk := true, stderrOk := true, ctrlHandlerOk := true,
          dwNumberOfProcessors := 0, heapAllocOk := true,
          createFails := fun _ => false }).2 ≠ 0 := by
  have h := c8_cpu_probe_nonpositive
    { nprocs := 0, sigintOk := true, sigtermOk := true, mallocOk := true,
      createFails := fun _ => false }
    { stdoutOk := true, stderrOk := true, ctrlHandlerOk := true,
      dwNumberOfProcessors := 0, heapAllocOk := true, createFails := fun _ => false }
    (by decide) rfl rfl rfl (by decide)
  exact ⟨h.1, h.2.2.2.1⟩

/-- C10: in the Windows spawn-failure path with formatting succeeding (which holds
for every slot index expressible as a C `INT`), the `WriteConsoleA` count argument
is `strlen(message)` where `message` still points at the unformatted template
`"ERROR: Failed to create thread %d.\n"` (35 characters), not
`strlen(messageBuffer)`; the formatted text itself has `33 + digits(k)`
characters, so the write is the formatted message truncated or padded to the
template length of 35 characters. -/
theorem c10_spawn_diag_uses_template_length (k : Nat) (hk : k < 2147483648) :
    winSpawnFailDiag k =
      Event.writeConsole Chan.stderr (winSpawnFailMsg k) winThreadTemplate.length
    ∧ winThreadTemplate.length = 35
    ∧ (winSpawnFailMsg k).length = 33 + (decimal k).length := by
  refine ⟨?_, by decide, winSpawnFailMsg_length k⟩
  simp [winSpawnFailDiag, winSpawnFailMsg_ok k hk]

/-- C10 witness: at slot 2 the formatted diagnostic has 34 characters but is
written with count 35, the template length. -/
theorem c10_spawn_diag_uses_template_length_witness :
    winSpawnFailDiag 2 = Event.writeConsole Chan.stderr (winSpawnFailMsg 2) 35
    ∧ (winSpawnFailMsg 2).length = 34 := by
  have h := c10_spawn_diag_uses_template_length 2 (by decide)
  refine ⟨?_, by decide⟩
  rw [h.1, h.2.1]

/-- C4 counterexample: the POSIX implementation discards the results of both
`signal` registrations (source lines 181–182), so a run in which
`signal(SIGINT, exit_handler)` fails — a startup failure on the
signal-handler-registration path — still proceeds and exits with status 0,
contradicting "nonzero on every startup failure path". -/
theorem c4_counterexample_registration_failure_exit_zero :
    ({ nprocs := 1, sigintOk := false, sigtermOk := true, mallocOk := true,
       createFails := fun _ => false } : PosixEnv).sigintOk = false
    ∧ (posixMain
        { nprocs := 1, sigintOk := false, sigtermOk := true, mallocOk := true,
          createFails := fun _ => false }).2 = 0 := by
  constructor <;> decide

/-- C4 (amended): the exit status is 0 exactly when every *checked* startup step
succeeds — positive processor count, allocation, all spawns, and on Windows also
the console handles and ctrl-handler registration; any checked failure exits 1.
The POSIX implementation ignores the results of its `signal` registrations, so
its status does not depend on them. -/
theorem c4_exit_status_characterization :
    (∀ env : PosixEnv, (posixMain env).2 = 0 ↔
      0 < env.nprocs ∧ env.mallocOk = true
        ∧ ∀ j, j < env.nprocs.toNat → env.createFails j = false)
    ∧ (∀ env : WinEnv, (winMain env).2 = 0 ↔
      env.stdoutOk = true ∧ env.stderrOk = true ∧ env.ctrlHandlerOk = true
        ∧ 0 < toInt32 env.dwNumberOfProcessors ∧ env.heapAllocOk = true
        ∧ ∀ j, j < (toInt32 env.dwNumberOfProcessors).toNat → env.createFails j = false) := by
  constructor
  · intro env
    by_cases hp : env.nprocs ≤ 0
    · simp [posixMain, hp]
    · cases hm : env.mallocOk with
      | false => simp [posixMain, hp, hm]
      | true =>
        rcases hs : (spawnLoop posixSpawnFailDiag env.createFails 0 env.nprocs.toNat).2 with _ | k
        · have hall := (spawnLoop_none_iff posixSpawnFailDiag env.createFails
            env.nprocs.toNat 0).mp hs
          simp [posixMain, hp, hm, hs]
          exact ⟨by omega, fun j hj => by simpa using hall j (by omega)⟩
        · have hnone : ¬ ∀ j, j < env.nprocs.toNat → env.createFails j = false := by
            intro hall
            have h2 := (spawnLoop_none_iff posixSpawnFailDiag env.createFails
              env.nprocs.toNat 0).mpr (fun j hj => by simpa using hall j hj)
            rw [hs] at h2
            exact Option.noConfusion h2
          push_neg at hnone
          obtain ⟨j, hj1, hj2⟩ := hnone
          simp [posixMain, hp, hm, hs]
          intro h
          exact ⟨j, by omega, by simpa using hj2⟩
  · intro env
    cases h1 : env.stdoutOk with
    | false => simp [winMain, h1]
    | true =>
    cases h2 : env.stderrOk with
    | false => simp [winMain, h1, h2]
    | true =>
    cases h3 : env.ctrlHandlerOk with
    | false => simp [winMain, h1, h2, h3]
    | true =>
    by_cases hp : toInt32 env.dwNumberOfProcessors ≤ 0
    · simp [winMain, h1, h2, h3, hp]
    · cases ha : env.heapAllocOk with
      | false => simp [winMain, h1, h2, h3, hp, ha]
      | true =>
        rcases hs : (spawnLoop winSpawnFailDiag env.createFails 0
            (toInt32 env.dwNumberOfProcessors).toNat).2 with _ | k
        · have hall := (spawnLoop_none_iff winSpawnFailDiag env.createFails
            (toInt32 env.dwNumberOfProcessors).toNat 0).mp hs
          simp [winMain, h1, h2, h3, hp, ha, hs]
          exact ⟨by omega, fun j hj => by simpa using hall j (by omega)⟩
        · have hnone : ¬ ∀ j, j < (toInt32 env.dwNumberOfProcessors).toNat →
              env.createFails j = false := by
            intro hall
            have h4 := (spawnLoop_none_iff winSpawnFailDiag env.createFails
              (toInt32 env.dwNumberOfProcessors).toNat 0).mpr
              (fun j hj => by simpa using hall j hj)
            rw [hs] at h4
            exact Option.noConfusion h4
          push_neg at hnone
          obtain ⟨j, hj1, hj2⟩ := hnone
          simp [winMain, h1, h2, h3, hp, ha, hs]
          intro h
          exact ⟨j, by omega, by simpa using hj2⟩

/-- C4 witness: a fully successful 2-processor POSIX run exits 0 by the
characterization. -/
theorem c4_exit_status_characterization_witness :
    (posixMain
        { nprocs := 2, sigintOk := true, sigtermOk := true, mallocOk := true,
          createFails := fun _ => false }).2 = 0 :=
  (c4_exit_status_characterization.1 _).mpr ⟨by decide, rfl, fun j _ => rfl⟩

/-- C6 counterexample: with `signal(SIGTERM, exit_handler)` failing and every
other external call succeeding, the POSIX program does not abort during startup:
it spawns workers and exits 0, contradicting the claim. -/
theorem c6_counterexample_registration_failure_ignored :
    ({ nprocs := 2, sigintOk := true, sigtermOk := false, mallocOk := true,
       createFails := fun _ => false } : PosixEnv).sigtermOk = false
    ∧ (posixMain
        { nprocs := 2, sigintOk := true, sigtermOk := false, mallocOk := true,
          createFails := fun _ => false }).2 = 0
    ∧ Event.spawn 0 ∈ (posixMain
        { nprocs := 2, sigintOk := true, sigtermOk := false, mallocOk := true,
          createFails := fun _ => false }).1 := by
  refine ⟨rfl, by decide, by decide⟩

/-- C6 (amended): registration failure aborts startup only on Windows: if
`SetConsoleCtrlHandler` fails there, the program writes a diagnostic to standard
error, exits 1 and spawns no worker.  The POSIX implementation discards the
results of both `signal` calls, so its entire observable behavior is independent
of whether registration succeeded. -/
theorem c6_registration_failure_checked_on_windows_only :
    (∀ env : WinEnv, env.stdoutOk = true → env.stderrOk = true →
      env.ctrlHandlerOk = false →
      winMain env = ([Event.writeConsole Chan.stderr winCtrlMsg winCtrlMsg.length], 1)
        ∧ (winMain env).2 ≠ 0 ∧ ∀ i, Event.spawn i ∉ (winMain env).1)
    ∧ (∀ (n : Int) (m : Bool) (c : Nat → Bool) (b1 b2 b1' b2' : Bool),
      posixMain ⟨n, b1, b2, m, c⟩ = posixMain ⟨n, b1', b2', m, c⟩) := by
  constructor
  · intro env h1 h2 h3
    have hW : winMain env =
        ([Event.writeConsole Chan.stderr winCtrlMsg winCtrlMsg.length], 1) := by
      simp [winMain, h1, h2, h3]
    refine ⟨hW, ?_, ?_⟩ <;> simp [hW]
  · intro n m c b1 b2 b1' b2'
    rfl

/-- C6 witness: a concrete Windows run whose ctrl-handler registration fails. -/
theorem c6_registration_failure_checked_on_windows_only_witness :
    winMain
        { stdoutOk := true, stderrOk := true, ctrlHandlerOk := false,
          dwNumberOfProcessors := 4, heapAllocOk := true,
          createFails := fun _ => false } =
      ([Event.writeConsole Chan.stderr winCtrlMsg winCtrlMsg.length], 1) :=
  (c6_registration_failure_checked_on_windows_only.1 _ rfl rfl rfl).1

/-- C7: if creating the k-th worker fails (all earlier spawns succeeding), both
implementations write a diagnostic naming index k to standard error, free the
handle sequence and exit 1; no join is attempted on any index ≥ k (none is
attempted at all), and the `Started` line is never written to standard output. -/
theorem c7_spawn_failure_aborts (pe : PosixEnv) (we : WinEnv) (N k : Nat)
    (hk : k < N) (hlt : N < 2147483648)
    (hpn : pe.nprocs = (N : Int)) (hpm : pe.mallocOk = true)
    (hpf : ∀ j, j < k → pe.createFails j = false) (hpk : pe.createFails k = true)
    (h1 : we.stdoutOk = true) (h2 : we.stderrOk = true) (h3 : we.ctrlHandlerOk = true)
    (hwn : we.dwNumberOfProcessors = N) (hwa : we.heapAllocOk = true)
    (hwf : ∀ j, j < k → we.createFails j = false) (hwk : we.createFails k = true) :
    posixMain pe =
      ((List.range k).map Event.spawn
        ++ [Event.write Chan.stderr ("Error creating thread " ++ decimal k ++ ".\n")]
        ++ [Event.freeSeq], 1)
    ∧ winMain we =
      ((List.range k).map Event.spawn
        ++ [Event.writeConsole Chan.stderr (winSpawnFailMsg k) 35]
        ++ [Event.freeSeq], 1)
    ∧ (∀ i, k ≤ i → Event.join i ∉ (posixMain pe).1 ∧ Event.join i ∉ (winMain we).1)
    ∧ (∀ m, Event.write Chan.stdout m ∉ (posixMain pe).1)
    ∧ (∀ (b : String) (cnt : Nat), Event.writeConsole Chan.stdout b cnt ∉ (winMain we).1) := by
  have h35 : winThreadTemplate.length = 35 := by decide
  have hdiag : winSpawnFailDiag k = Event.writeConsole Chan.stderr (winSpawnFailMsg k) 35 := by
    simp [winSpawnFailDiag, winSpawnFailMsg_ok k (by omega), h35]
  have hP := posixMain_spawnFail pe N k hk hpn hpm hpf hpk
  have hW := winMain_spawnFail we N k hk hlt h1 h2 h3 hwn hwa hwf hwk
  rw [hdiag] at hW
  refine ⟨by simpa [posixSpawnFailDiag] using hP, hW, ?_, ?_, ?_⟩
  · intro i _
    constructor
    · rw [hP]
      simp [posixSpawnFailDiag]
    · rw [hW]
      simp
  · intro m
    rw [hP]
    simp [posixSpawnFailDiag]
  · intro b cnt
    rw [hW]
    simp

/-- C7 witness: spawn of worker 2 of 3 fails; the POSIX trace is two spawns,
the `Error creating thread 2.` diagnostic, and the free, with exit status 1. -/
theorem c7_spawn_failure_aborts_witness :
    posixMain
        { nprocs := 3, sigintOk := true, sigtermOk := true, mallocOk := true,
          createFails := fun i => i == 2 } =
      ((List.range 2).map Event.spawn
        ++ [Event.write Chan.stderr ("Error creating thread " ++ decimal 2 ++ ".\n")]
        ++ [Event.freeSeq], 1) :=
  (c7_spawn_failure_aborts
    { nprocs := 3, sigintOk := true, sigtermOk := true, mallocOk := true,
      createFails := fun i => i == 2 }
    { stdoutOk := true, stderrOk := true, ctrlHandlerOk := true,
      dwNumberOfProcessors := 3, heapAllocOk := true, createFails := fun i => i == 2 }
    3 2 (by decide) (by decide) (by decide) rfl (by decide) rfl rfl rfl rfl rfl rfl
    (by decide) rfl).1

/-- C1: for every positive processor count N returned by the probe (a positive C
`INT`), when the checked startup steps and all spawns succeed, each supervisor
spawns exactly N workers (one per slot), prints the startup line, joins each of
the N handles exactly once, then frees the sequence and returns success: the
whole trace is exhibited, and the spawn and join events for each slot `i < N`
occur exactly once. -/
theorem c1_spawn_join_all (pe : PosixEnv) (we : WinEnv) (N : Nat)
    (hN : 0 < N) (hlt : N < 2147483648)
    (hpn : pe.nprocs = (N : Int)) (hpm : pe.mallocOk = true)
    (hpf : ∀ i, i < N → pe.createFails i = false)
    (h1 : we.stdoutOk = true) (h2 : we.stderrOk = true) (h3 : we.ctrlHandlerOk = true)
    (hwn : we.dwNumberOfProcessors = N) (hwa : we.heapAllocOk = true)
    (hwf : ∀ i, i < N → we.createFails i = false) :
    posixMain pe =
      ((List.range N).map Event.spawn
        ++ [Event.write Chan.stdout (posixStartedMsg (N : Int))]
        ++ (List.range N).map Event.join ++ [Event.freeSeq], 0)
    ∧ winMain we =
      ((List.range N).map Event.spawn
        ++ [Event.writeConsole Chan.stdout (winStartedMsg (N : Int)) (winStartedMsg (N : Int)).length]
        ++ (List.range N).map Event.join
        ++ (List.range N).map Event.closeHandle ++ [Event.freeSeq], 0)
    ∧ (∀ i, i < N →
        (posixMain pe).1.count (Event.spawn i) = 1
        ∧ (posixMain pe).1.count (Event.join i) = 1
        ∧ (winMain we).1.count (Event.spawn i) = 1
        ∧ (winMain we).1.count (Event.join i) = 1) := by
  have hP := posixMain_success pe N hN hpn hpm hpf
  have hW := winMain_success we N hN hlt h1 h2 h3 hwn hwa hwf
  have hsinj : Function.Injective Event.spawn := fun a b h => by simpa using h
  have hjinj : Function.Injective Event.join := fun a b h => by simpa using h
  have hcr : ∀ i, i < N → (List.range N).count i = 1 := fun i hi =>
    List.count_eq_one_of_mem (List.nodup_range N) (List.mem_range.mpr hi)
  refine ⟨hP, hW, fun i hi => ?_⟩
  have hs1 : ((List.range N).map Event.spawn).count (Event.spawn i) = 1 := by
    rw [List.count_map_of_injective _ Event.spawn hsinj]
    exact hcr i hi
  have hj1 : ((List.range N).map Event.join).count (Event.join i) = 1 := by
    rw [List.count_map_of_injective _ Event.join hjinj]
    exact hcr i hi
  have hz1 : ((List.range N).map Event.spawn).count (Event.join i) = 0 := by
    simp [List.count_eq_zero]
  have hz2 : ((List.range N).map Event.closeHandle).count (Event.join i) = 0 := by
    simp [List.count_eq_zero]
  have hz3 : ((List.range N).map Event.join).count (Event.spawn i) = 0 := by
    simp [List.count_eq_zero]
  have hz4 : ((List.range N).map Event.closeHandle).count (Event.spawn i) = 0 := by
    simp [List.count_eq_zero]
  refine ⟨?_, ?_, ?_, ?_⟩ <;>
    simp [hP, hW, List.count_append, hs1, hj1, hz1, hz2, hz3, hz4]

/-- C1 witness: a 2-processor run on both platforms, fully evaluated. -/
theorem c1_spawn_join_all_witness :
    (posixMain
        { nprocs := 2, sigintOk := true, sigtermOk := true, mallocOk := true,
          createFails := fun _ => false }).1.count (Event.join 1) = 1
    ∧ (winMain
        { stdoutOk := true, stderrOk := true, ctrlHandlerOk := true,
          dwNumberOfProcessors := 2, heapAllocOk := true,
          createFails := fun _ => false }).1.count (Event.join 1) = 1 := by
  have h := c1_spawn_join_all
    { nprocs := 2, sigintOk := true, sigtermOk := true, mallocOk := true,
      createFails := fun _ => false }
    { stdoutOk := true, stderrOk := true, ctrlHandlerOk := true,
      dwNumberOfProcessors := 2, heapAllocOk := true, createFails := fun _ => false }
    2 (by decide) (by decide) (by decide) rfl (fun i _ => rfl) rfl rfl rfl rfl rfl
    (fun i _ => rfl)
  exact ⟨(h.2.2 1 (by decide)).2.1, (h.2.2 1 (by decide)).2.2.2⟩

/-- C9: in every execution in which all N spawns succeed, exactly one stdout
write occurs in the whole trace; it is the line `Started <N> worker threads`
with N rendered in decimal, placed after the last spawn and before any join.
(On Windows formatting always succeeds for an `INT` count, so the formatted
buffer — not the fallback — is written, with its own length as the count.) -/
theorem c9_started_line (pe : PosixEnv) (we : WinEnv) (N : Nat)
    (hN : 0 < N) (hlt : N < 2147483648)
    (hpn : pe.nprocs = (N : Int)) (hpm : pe.mallocOk = true)
    (hpf : ∀ i, i < N → pe.createFails i = false)
    (h1 : we.stdoutOk = true) (h2 : we.stderrOk = true) (h3 : we.ctrlHandlerOk = true)
    (hwn : we.dwNumberOfProcessors = N) (hwa : we.heapAllocOk = true)
    (hwf : ∀ i, i < N → we.createFails i = false) :
    posixMain pe =
      ((List.range N).map Event.spawn
        ++ [Event.write Chan.stdout ("Started " ++ decimal N ++ " worker threads\n")]
        ++ (List.range N).map Event.join ++ [Event.freeSeq], 0)
    ∧ winMain we =
      ((List.range N).map Event.spawn
        ++ [Event.writeConsole Chan.stdout ("Started " ++ decimal N ++ " worker threads\n")
              ("Started " ++ decimal N ++ " worker threads\n").length]
        ++ (List.range N).map Event.join
        ++ (List.range N).map Event.closeHandle ++ [Event.freeSeq], 0)
    ∧ (posixMain pe).1.countP Event.isStdoutWrite = 1
    ∧ (winMain we).1.countP Event.isStdoutWrite = 1 := by
  have hmsgP : posixStartedMsg (N : Int) = "Started " ++ decimal N ++ " worker threads\n" := by
    simp [posixStartedMsg, decimalInt_natCast]
  have hmsgW : winStartedMsg (N : Int) = "Started " ++ decimal N ++ " worker threads\n" := by
    simp [winStartedMsg, decimalInt_natCast]
  have hP := posixMain_success pe N hN hpn hpm hpf
  have hW := winMain_success we N hN hlt h1 h2 h3 hwn hwa hwf
  rw [hmsgP] at hP
  rw [hmsgW] at hW
  refine ⟨hP, hW, ?_, ?_⟩ <;>
    simp [hP, hW, List.countP_append, List.countP_map, Function.comp_def,
      Event.isStdoutWrite]

/-- C9 witness: the 4-processor run of the first end-to-end scenario of the spec,
on both platforms: one `Started 4 worker threads` line on stdout. -/
theorem c9_started_line_witness :
    (posixMain
        { nprocs := 4, sigintOk := true, sigtermOk := true, mallocOk := true,
          createFails := fun _ => false }).1.countP Event.isStdoutWrite = 1
    ∧ Event.write Chan.stdout "Started 4 worker threads\n" ∈ (posixMain
        { nprocs := 4, sigintOk := true, sigtermOk := true, mallocOk := true,
          createFails := fun _ => false }).1 := by
  have h := c9_started_line
    { nprocs := 4, sigintOk := true, sigtermOk := true, mallocOk := true,
      createFails := fun _ => false }
    { stdoutOk := true, stderrOk := true, ctrlHandlerOk := true,
      dwNumberOfProcessors := 4, heapAllocOk := true, createFails := fun _ => false }
    4 (by decide) (by decide) (by decide) rfl (fun i _ => rfl) rfl rfl rfl rfl rfl
    (fun i _ => rfl)
  refine ⟨h.2.2.1, ?_⟩
  rw [h.1]
  have he : Event.write Chan.stdout "Started 4 worker threads\n"
      = Event.write Chan.stdout ("Started " ++ decimal 4 ++ " worker threads\n") := by decide
  rw [he]
  exact List.mem_append_left _ (List.mem_append_left _
    (List.mem_append_right _ (List.mem_singleton_self _)))

end SpaceHeater
